import Mathlib

/-!
Verification development for the GreyNoise MMDB → Cribl Cloud synchronization
script (`greynoise-mmdb-to-cribl-cloud.py`).

The script's core is:
  * `convert_mmdb_to_csv` — reads the MMDB entry stream, infers a CSV schema
    from a bounded sample of records, and writes one CSV row per record with
    non-empty data, encoding nested values with legible type indicators;
  * the remote-lookup synchronizer — `upload_lookup_file`,
    `check_lookup_exists`, `create_lookup` / `update_lookup`, and the
    orchestration in `main` that dispatches between create and update.

This file embeds those functions shallowly: the MMDB reader's entry stream is
a `List (IPv4Net × Value)`, Python's dynamic record values are the inductive
`Value`, and the CSV output is the pair (header row, data rows), each row a
`List String`.  HTTP endpoints appear only through the data they deliver
(responses as `Option` / `Except` values); effects of the external Cribl
store that the source never implements are modelled from the spec and marked
as such in their doc comments.
-/

/-- A Python value as read from an MMDB record: the dynamic, heterogeneous
values that `convert_mmdb_to_csv` dispatches on with `isinstance` checks.
Dicts keep insertion order, as Python dicts do. -/
inductive Value where
  | str (s : String)
  | int (n : Int)
  | bool (b : Bool)
  | null
  | list (xs : List Value)
  | dict (kvs : List (String × Value))

/-- Python truthiness of a `Value`, as tested by `if data:` in the source:
empty strings, zero, `False`, `None`, empty lists and empty dicts are falsy. -/
def truthy : Value → Bool
  | .str s => s ≠ ""
  | .int n => n ≠ 0
  | .bool b => b
  | .null => false
  | .list xs => !xs.isEmpty
  | .dict kvs => !kvs.isEmpty

mutual

/-- Python `repr` of a `Value`, used when a container is stringified
(string escaping inside `repr` of a string is not reproduced; no claim
exercises it). -/
def pyRepr : Value → String
  | .str s => "\x27" ++ s ++ "\x27"
  | .int n => toString n
  | .bool b => if b then "True" else "False"
  | .null => "None"
  | .list xs => "[" ++ String.intercalate ", " (pyReprList xs) ++ "]"
  | .dict kvs => "\x7b" ++ String.intercalate ", " (pyReprKVs kvs) ++ "\x7d"

/-- `repr` of each element of a Python list. -/
def pyReprList : List Value → List String
  | [] => []
  | v :: vs => pyRepr v :: pyReprList vs

/-- `repr` of each key/value pair of a Python dict. -/
def pyReprKVs : List (String × Value) → List String
  | [] => []
  | (k, v) :: kvs => ("\x27" ++ k ++ "\x27: " ++ pyRepr v) :: pyReprKVs kvs

end

/-- Python `str` of a `Value`: identity on strings, `repr`-like otherwise
(`str(1) = "1"`, `str(True) = "True"`, `str(None) = "None"`,
`str([1]) = "[1]"`). -/
def pyStr : Value → String
  | .str s => s
  | v => pyRepr v

/-- Python `s.replace(pat, rep)` where `pat` is a single character — the only
form the source uses (`","`, `'"'`, `"\n"`, `"\r"`): substitute each
occurrence of that character by `rep`.  Written by structural recursion over
the string's characters so concrete instances reduce inside the kernel. -/
def charReplace (s : String) (c : Char) (rep : String) : String :=
  ⟨(s.data.map (fun a => if a = c then rep.data else [a])).flatten⟩

/-- Python `s[:n]`: the first `n` characters of `s`. -/
def strTake (s : String) (n : Nat) : String := ⟨s.data.take n⟩

/-- The sanitization applied to a single list item in the source:
`str(value[0]).replace(",", ";").replace('"', "'").replace("\n", " ")[:50]`. -/
def cleanShort (s : String) : String :=
  strTake (charReplace (charReplace (charReplace s ',' ";") '"' "\x27") '\n' " ") 50

/-- The sanitization applied to a simple scalar value in the source:
commas→semicolons, double quotes→single quotes, newlines→spaces, carriage
returns removed, truncated to 200 characters. -/
def cleanLong (s : String) : String :=
  strTake (charReplace (charReplace (charReplace (charReplace s ',' ";") '"' "\x27")
    '\n' " ") '\r' "") 200

/-- The key-name preview used for non-empty nested dicts in the source:
`"_".join(str(k).replace(",", ";")[:10] for k in list(value.keys())[:3])`. -/
def keysPreview (keys : List String) : String :=
  String.intercalate "_" ((keys.take 3).map (fun k => strTake (charReplace k ',' ";") 10))

/-- Embedding of the per-cell encoding in `convert_mmdb_to_csv`
(source lines 391–425), applied to `value = data.get(key, "")`:
lists → `EMPTY_LIST` / `LIST_1_ITEM_<item>` / `LIST_<n>_ITEMS`;
dicts → `EMPTY_DICT` / `DICT_<n>_KEYS_<preview>`; `None` or `""` → `NULL`;
booleans → `true`/`false`; anything else → sanitized string form. -/
def encodeValue : Value → String
  | .list [] => "EMPTY_LIST"
  | .list [x] => "LIST_1_ITEM_" ++ cleanShort (pyStr x)
  | .list xs => "LIST_" ++ toString xs.length ++ "_ITEMS"
  | .dict [] => "EMPTY_DICT"
  | .dict kvs => "DICT_" ++ toString kvs.length ++ "_KEYS_" ++ keysPreview (kvs.map Prod.fst)
  | .null => "NULL"
  | .str "" => "NULL"
  | .bool b => if b then "true" else "false"
  | v => cleanLong (pyStr v)

/-- An IPv4 network as yielded by the MMDB reader: a 32-bit base address and
a routing prefix length.  The reader always yields proper networks (host bits
clear), and `ipaddress.ip_network` re-derives the network and broadcast
addresses by masking, which we reproduce arithmetically. -/
structure IPv4Net where
  addr : Nat
  plen : Nat
deriving Repr, DecidableEq

/-- Number of host bits of a network. -/
def hostBits (n : IPv4Net) : Nat := 32 - n.plen

/-- `network_obj.network_address` as a number: the base address with host
bits cleared. -/
def netStart (n : IPv4Net) : Nat := n.addr / 2 ^ hostBits n * 2 ^ hostBits n

/-- `network_obj.broadcast_address` as a number: the base address with host
bits set. -/
def netEnd (n : IPv4Net) : Nat := netStart n + (2 ^ hostBits n - 1)

/-- Dotted-quad rendering of a 32-bit IPv4 address. -/
def dotted (a : Nat) : String :=
  toString (a / 16777216 % 256) ++ "." ++ toString (a / 65536 % 256) ++ "." ++
    toString (a / 256 % 256) ++ "." ++ toString (a % 256)

/-- `str(network)` for an IPv4 network: the network address in CIDR form. -/
def netString (n : IPv4Net) : String := dotted (netStart n) ++ "/" ++ toString n.plen

/-- One MMDB entry as yielded by `for network, data in reader`. -/
abbrev Entry := IPv4Net × Value

/-- The three fixed leading CSV columns (`base_headers` in the source). -/
def baseHeaders : List String := ["network", "network_start", "network_end"]

/-- The base fields of a CSV row, in insertion order: the initial `csv_row`
dict literal of the source. -/
def baseFields (net : IPv4Net) : List (String × String) :=
  [("network", netString net),
   ("network_start", dotted (netStart net)),
   ("network_end", dotted (netEnd net))]

/-- `csv_row[key] = v` on an insertion-ordered dict: update in place when the
key exists, append otherwise. -/
def setField (row : List (String × String)) (k v : String) : List (String × String) :=
  if (row.map Prod.fst).contains k then
    row.map (fun p => if p.1 = k then (p.1, v) else p)
  else row ++ [(k, v)]

/-- `data.get(key, "")`: the value of a key in a record dict, defaulting to
the empty string. -/
def dictGet (kvs : List (String × Value)) (k : String) : Value :=
  (List.lookup k kvs).getD (.str "")

/-- The `csv_row` dict built for one entry (source lines 381–425): base
fields, then — only when the data is a dict — one encoded field per schema
data column. -/
def csvRowAssoc (dataHeaders : List String) (net : IPv4Net) (data : Value) :
    List (String × String) :=
  match data with
  | .dict kvs =>
      dataHeaders.foldl (fun row k => setField row k (encodeValue (dictGet kvs k)))
        (baseFields net)
  | _ => baseFields net

/-- `csv.DictWriter.writerow`: render a row dict against the header list,
writing the writer's default `restval` (the empty string) for fields absent
from the row. -/
def renderRow (headers : List String) (row : List (String × String)) : List String :=
  headers.map (fun h => (List.lookup h row).getD "")

/-- `headers_found.update(data.keys())` on an insertion-ordered model of the
Python set: add each key not already present. -/
def unionKeys (acc : List String) (ks : List String) : List String :=
  ks.foldl (fun a k => if k ∈ a then a else a ++ [k]) acc

/-- The header-collection step for one record's data: dict records contribute
their keys, any other data contributes nothing. -/
def keysUpdate (acc : List String) (data : Value) : List String :=
  match data with
  | .dict kvs => unionKeys acc (kvs.map Prod.fst)
  | _ => acc

/-- The schema-sampling loop of `convert_mmdb_to_csv` (source lines 345–354):
walk the entry stream, skip entries with falsy data, collect keys of dict
data, count qualifying entries, and break once the count reaches the sample
size. -/
def sampleLoop (sampleSize : Nat) : List Entry → Nat → List String → List String
  | [], _, acc => acc
  | e :: rest, cnt, acc =>
      if truthy e.2 then
        let acc' := keysUpdate acc e.2
        if sampleSize ≤ cnt + 1 then acc'
        else sampleLoop sampleSize rest (cnt + 1) acc'
      else sampleLoop sampleSize rest cnt acc

/-- Boolean lexicographic comparison of character lists by code point — the
order Python's `sorted` uses on strings.  Written so concrete instances
reduce inside the kernel. -/
def lexLeChars : List Char → List Char → Bool
  | [], _ => true
  | _ :: _, [] => false
  | a :: as, b :: bs =>
      if a < b then true
      else if b < a then false
      else lexLeChars as bs

/-- Python's `s1 <= s2` on strings: lexicographic by code point. -/
def strLeB (a b : String) : Bool := lexLeChars a.data b.data

/-- Lexicographic string sort, as `sorted(list(headers_found))`. -/
def sortStrings (l : List String) : List String :=
  List.insertionSort (fun a b => strLeB a b = true) l

/-- `data_headers = sorted(list(headers_found))` for a given entry stream and
sample size (1000 in the source). -/
def inferDataHeaders (entries : List Entry) (sampleSize : Nat) : List String :=
  sortStrings (sampleLoop sampleSize entries 0 [])

/-- `csv_headers = base_headers + data_headers`. -/
def inferHeaders (entries : List Entry) (sampleSize : Nat) : List String :=
  baseHeaders ++ inferDataHeaders entries sampleSize

/-- Truthiness test of `max_rows` combined with the cap comparison: the
source's `if max_rows and rows_written >= max_rows`. -/
def capReached (maxRows : Option Nat) (written : Nat) : Bool :=
  match maxRows with
  | none => false
  | some k => if k = 0 then false else decide (k ≤ written)

/-- The row-writing loop of `convert_mmdb_to_csv` (source lines 371–428):
break when the cap is reached, skip entries with falsy data, otherwise render
the entry's row and count it. -/
def writeRowsLoop (dataHeaders : List String) (maxRows : Option Nat) :
    List Entry → Nat → List (List String)
  | [], _ => []
  | e :: rest, written =>
      if capReached maxRows written then []
      else if truthy e.2 then
        renderRow (baseHeaders ++ dataHeaders) (csvRowAssoc dataHeaders e.1 e.2) ::
          writeRowsLoop dataHeaders maxRows rest (written + 1)
      else writeRowsLoop dataHeaders maxRows rest written

/-- `convert_mmdb_to_csv`, parameterized by the schema sample size: the CSV
content written, as (header row, data rows).  File naming, logging and the
file-size report are I/O details outside the embedding. -/
def convertSampled (entries : List Entry) (sampleSize : Nat) (maxRows : Option Nat) :
    List String × List (List String) :=
  let dataHeaders := inferDataHeaders entries sampleSize
  (baseHeaders ++ dataHeaders, writeRowsLoop dataHeaders maxRows entries 0)

/-- `convert_mmdb_to_csv` with the source's fixed sample size of 1000. -/
def convert_mmdb_to_csv (entries : List Entry) (maxRows : Option Nat) :
    List String × List (List String) :=
  convertSampled entries 1000 maxRows

/-- `lookup_filename.split(".")[0]`: the artifact's base name, everything up
to the first dot. -/
def baseNameOf (lookup_filename : String) : String :=
  ⟨lookup_filename.data.takeWhile (fun c => c ≠ '.')⟩

/-- Python `s.startswith(pre)`, via the character list so concrete instances
reduce inside the kernel. -/
def pyStartsWith (s pre : String) : Bool := pre.data.isPrefixOf s.data

/-- Embedding of the response-handling part of `upload_lookup_file` (source
lines 207–218): given the optional `filename` field of the server's JSON
response, return the accepted temporary filename, or `none` (the upload is
treated as failed) when the field is missing, empty, or not prefixed by the
artifact's base name. -/
def upload_lookup_file (lookup_filename : String) (responseFilename : Option String) :
    Option String :=
  match responseFilename with
  | none => none
  | some temp =>
      if temp = "" then none
      else if pyStartsWith temp (baseNameOf lookup_filename) then some temp
      else none

/-- Outcome of the existence query issued by `check_lookup_exists`:
`Except.error ()` models a non-2xx response or transport error (the caught
`RequestException`); `Except.ok none` models a falsy JSON body or one without
an `items` field; `Except.ok (some items)` carries the items' optional `id`
fields. -/
abbrev QueryResult := Except Unit (Option (List (Option String)))

/-- `check_lookup_exists` (source lines 174–189): `False` on request error,
on a falsy/`items`-less body and on an empty items list, else whether some
item's `id` equals the logical filename. -/
def check_lookup_exists (resp : QueryResult) (lookup_filename : String) : Bool :=
  match resp with
  | .error _ => false
  | .ok none => false
  | .ok (some items) =>
      if items.isEmpty then false
      else items.any (fun item => item == some lookup_filename)

/-- The JSON payload `{"id": lookup_filename, "fileInfo": {"filename":
temp_filename}}` shared by `create_lookup` and `update_lookup`. -/
structure LookupPayload where
  id : String
  fileInfoFilename : String
deriving Repr, DecidableEq

/-- Payload of the `create_lookup` POST (source line 227). -/
def create_lookup_payload (lookup_filename temp_filename : String) : LookupPayload :=
  ⟨lookup_filename, temp_filename⟩

/-- Payload of the `update_lookup` PATCH (source line 242). -/
def update_lookup_payload (lookup_filename temp_filename : String) : LookupPayload :=
  ⟨lookup_filename, temp_filename⟩

/-- Which bind call `main` issued for an artifact. -/
inductive BindAction where
  | createPath
  | updatePath
deriving Repr, DecidableEq

/-- Modelled from the spec: the remote lookup store is an external service
whose code is not part of this repository.  Per the spec, the per-lookup
existence query returns the registration for that logical filename when it is
registered (so the `any` id-check succeeds) and an empty item list when it is
not. -/
def remoteQuery (registered : List String) (lookup_filename : String) : QueryResult :=
  if registered.contains lookup_filename then .ok (some [some lookup_filename])
  else .ok (some [])

/-- The create-or-update dispatch of `main` (source lines 481–488) running
against a remote store holding `registered` logical filenames, together with
the payload sent and — modelled from the spec, since the server is external —
the set of registered filenames after the call (a successful create registers
the logical filename). -/
def bindStep (registered : List String) (lookup_filename temp_filename : String) :
    BindAction × LookupPayload × List String :=
  if check_lookup_exists (remoteQuery registered lookup_filename) lookup_filename then
    (.updatePath, update_lookup_payload lookup_filename temp_filename, registered)
  else
    (.createPath, create_lookup_payload lookup_filename temp_filename,
      lookup_filename :: registered)

/-- The bind segment of `main` (source lines 481–488) as a run outcome: the
existence check picks update or create, and a failing update/create raises
the corresponding fatal exception (`Except.error`). -/
def mainBindSegment (resp : QueryResult) (lookup_filename temp_filename : String)
    (updateSucceeds createSucceeds : Bool) : Except String (BindAction × LookupPayload) :=
  if check_lookup_exists resp lookup_filename then
    if updateSucceeds then
      .ok (.updatePath, update_lookup_payload lookup_filename temp_filename)
    else .error "Failed to update lookup file"
  else
    if createSucceeds then
      .ok (.createPath, create_lookup_payload lookup_filename temp_filename)
    else .error "Failed to create lookup file"

/-! Spec-side definitions.  These follow the specification's words, for the
claims that describe `convert_mmdb_to_csv`'s behaviour declaratively; the
theorems below relate them to the loop embeddings above. -/

/-- The first `n` records with non-empty data, in delivery order: the sample
the spec says schema inference draws from. -/
def sampleOf (entries : List Entry) (n : Nat) : List Entry :=
  (entries.filter (fun e => truthy e.2)).take n

/-- Folding the key collection over a list of entries (the functional form of
the sampling loop's effect on `headers_found`). -/
def collectKeys (acc : List String) (l : List Entry) : List String :=
  l.foldl (fun a e => keysUpdate a e.2) acc

/-- The data of entry `e` is a dict having key `k`. -/
def dictHasKey (data : Value) (k : String) : Prop :=
  match data with
  | .dict kvs => k ∈ kvs.map Prod.fst
  | _ => False

/-- The spec's description of the non-empty-dict cell rendering, as amended:
`DICT_<n>_KEYS_` followed by the first three key names, each with commas
replaced by semicolons and truncated to at most 10 characters, joined by
underscores. -/
def specDictCell (n : Nat) (keys : List String) : String :=
  "DICT_" ++ toString n ++ "_KEYS_" ++
    String.intercalate "_" ((keys.take 3).map (fun k => strTake (charReplace k ',' ";") 10))

/-- The claim's original description of the dict cell rendering: first three
key names with commas stripped (removed), each truncated to at most 10
characters. -/
def specDictCellStripped (n : Nat) (keys : List String) : String :=
  "DICT_" ++ toString n ++ "_KEYS_" ++
    String.intercalate "_" ((keys.take 3).map (fun k => strTake (charReplace k ',' "") 10))

/-- `v` is a Python dict. -/
def isDictV : Value → Bool
  | .dict _ => true
  | _ => false

/-- The three-entry database of the end-to-end scenario:
`{10.0.0.0/24: {"score": 1}, 10.0.1.0/24: {}, 10.0.2.0/24: {"score": 2,
"tags": ["a", "b"]}}`. -/
def endToEndDb : List Entry :=
  [(⟨167772160, 24⟩, .dict [("score", .int 1)]),
   (⟨167772416, 24⟩, .dict []),
   (⟨167772672, 24⟩, .dict [("score", .int 2), ("tags", .list [.str "a", .str "b"])])]

/-- A two-entry database whose second record has scalar (non-dict) data:
`{10.0.0.0/24: {"score": 1}, 10.0.1.0/24: "hello"}`. -/
def scalarDb : List Entry :=
  [(⟨167772160, 24⟩, .dict [("score", .int 1)]),
   (⟨167772416, 24⟩, .str "hello")]

/-! Helper lemmas. -/

/-- Lexicographic comparison of character lists is total. -/
theorem lexLeChars_total : ∀ as bs, lexLeChars as bs = true ∨ lexLeChars bs as = true := by
  intro as
  induction as with
  | nil => intro bs; exact Or.inl rfl
  | cons a as ih =>
    intro bs
    cases bs with
    | nil => exact Or.inr rfl
    | cons b bs =>
      rcases lt_trichotomy a b with h | h | h
      · left; simp [lexLeChars, h]
      · subst h
        rcases ih bs with h2 | h2
        · left; simpa [lexLeChars, lt_self_iff_false] using h2
        · right; simpa [lexLeChars, lt_self_iff_false] using h2
      · right; simp [lexLeChars, h]

/-- Lexicographic comparison of character lists is transitive. -/
theorem lexLeChars_trans : ∀ as bs cs, lexLeChars as bs = true →
    lexLeChars bs cs = true → lexLeChars as cs = true := by
  intro as
  induction as with
  | nil => intro bs cs _ _; rfl
  | cons a as ih =>
    intro bs cs h1 h2
    cases bs with
    | nil => simp [lexLeChars] at h1
    | cons b bs =>
      cases cs with
      | nil => simp [lexLeChars] at h2
      | cons c cs =>
        rcases lt_trichotomy a b with hab | hab | hab
        · rcases lt_trichotomy b c with hbc | hbc | hbc
          · simp [lexLeChars, lt_trans hab hbc]
          · subst hbc; simp [lexLeChars, hab]
          · exfalso; simp [lexLeChars, asymm hbc, hbc] at h2
        · subst hab
          have h1' : lexLeChars as bs = true := by
            simpa [lexLeChars, lt_self_iff_false] using h1
          rcases lt_trichotomy a c with hac | hac | hac
          · simp [lexLeChars, hac]
          · subst hac
            have h2' : lexLeChars bs cs = true := by
              simpa [lexLeChars, lt_self_iff_false] using h2
            simpa [lexLeChars, lt_self_iff_false] using ih bs cs h1' h2'
          · exfalso; simp [lexLeChars, asymm hac, hac] at h2
        · exfalso; simp [lexLeChars, asymm hab, hab] at h1

/-- The schema-sampling loop, started part-way through the count, collects
exactly the keys of the remaining sample: the first `sampleSize - cnt`
entries with truthy data. -/
theorem sampleLoop_eq_collect (n : Nat) (entries : List Entry) :
    ∀ (cnt : Nat) (acc : List String), cnt < n →
      sampleLoop n entries cnt acc =
        collectKeys acc ((entries.filter (fun e => truthy e.2)).take (n - cnt)) := by
  induction entries with
  | nil => intro cnt acc _; simp [sampleLoop, collectKeys]
  | cons e rest ih =>
    intro cnt acc h
    obtain ⟨m, hm⟩ : ∃ m, n - cnt = m + 1 := ⟨n - cnt - 1, by omega⟩
    by_cases ht : truthy e.2
    · have hfil : List.filter (fun e => truthy e.2) (e :: rest) =
          e :: List.filter (fun e => truthy e.2) rest := by simp [ht]
      rw [hfil, hm, List.take_succ_cons, sampleLoop, if_pos ht]
      show (if n ≤ cnt + 1 then keysUpdate acc e.2
            else sampleLoop n rest (cnt + 1) (keysUpdate acc e.2)) =
        collectKeys (keysUpdate acc e.2)
          (List.take m (List.filter (fun e => truthy e.2) rest))
      by_cases hn : n ≤ cnt + 1
      · have hm0 : m = 0 := by omega
        rw [if_pos hn, hm0]
        simp [collectKeys]
      · rw [if_neg hn, ih (cnt + 1) (keysUpdate acc e.2) (by omega)]
        have h2 : n - (cnt + 1) = m := by omega
        rw [h2]
    · have hfil : List.filter (fun e => truthy e.2) (e :: rest) =
          List.filter (fun e => truthy e.2) rest := by simp [ht]
      rw [sampleLoop, if_neg ht, hfil, ih cnt acc h]

/-- Membership in the set-union of key lists. -/
theorem mem_unionKeys (ks : List String) :
    ∀ (acc : List String) (x : String), x ∈ unionKeys acc ks ↔ x ∈ acc ∨ x ∈ ks := by
  induction ks with
  | nil => intro acc x; simp [unionKeys]
  | cons k ks ih =>
    intro acc x
    rw [show unionKeys acc (k :: ks) =
          unionKeys (if k ∈ acc then acc else acc ++ [k]) ks from rfl, ih]
    by_cases hk : k ∈ acc
    · simp only [if_pos hk, List.mem_cons]
      constructor
      · rintro (hx | hx)
        · exact Or.inl hx
        · exact Or.inr (Or.inr hx)
      · rintro (hx | hx | hx)
        · exact Or.inl hx
        · exact Or.inl (hx ▸ hk)
        · exact Or.inr hx
    · simp only [if_neg hk, List.mem_append, List.mem_singleton, List.mem_cons]
      tauto

/-- The set-union of key lists keeps the accumulator duplicate-free. -/
theorem nodup_unionKeys (ks : List String) :
    ∀ acc : List String, acc.Nodup → (unionKeys acc ks).Nodup := by
  induction ks with
  | nil => intro acc h; simpa [unionKeys] using h
  | cons k ks ih =>
    intro acc h
    rw [show unionKeys acc (k :: ks) =
          unionKeys (if k ∈ acc then acc else acc ++ [k]) ks from rfl]
    by_cases hk : k ∈ acc
    · exact ih _ (by simpa [if_pos hk] using h)
    · refine ih _ ?_
      rw [if_neg hk]
      simp only [List.nodup_append, List.nodup_cons, List.nodup_nil, List.disjoint_singleton]
      exact ⟨h, by simp, hk⟩

/-- Membership after one record's key-collection step. -/
theorem mem_keysUpdate (acc : List String) (d : Value) (x : String) :
    x ∈ keysUpdate acc d ↔ x ∈ acc ∨ dictHasKey d x := by
  cases d <;> simp [keysUpdate, dictHasKey, mem_unionKeys]

/-- One record's key-collection step keeps the accumulator duplicate-free. -/
theorem nodup_keysUpdate (acc : List String) (d : Value) (h : acc.Nodup) :
    (keysUpdate acc d).Nodup := by
  cases d <;> simp [keysUpdate] <;> first | exact h | exact nodup_unionKeys _ _ h

/-- Membership in the keys collected over a list of entries. -/
theorem mem_collectKeys (l : List Entry) :
    ∀ (acc : List String) (x : String),
      x ∈ collectKeys acc l ↔ x ∈ acc ∨ ∃ e ∈ l, dictHasKey e.2 x := by
  induction l with
  | nil => intro acc x; simp [collectKeys]
  | cons e rest ih =>
    intro acc x
    rw [show collectKeys acc (e :: rest) = collectKeys (keysUpdate acc e.2) rest from rfl,
      ih, mem_keysUpdate]
    simp only [List.mem_cons]
    constructor
    · rintro ((hx | hx) | ⟨e', he', hx⟩)
      · exact Or.inl hx
      · exact Or.inr ⟨e, Or.inl rfl, hx⟩
      · exact Or.inr ⟨e', Or.inr he', hx⟩
    · rintro (hx | ⟨e', (he' | he'), hx⟩)
      · exact Or.inl (Or.inl hx)
      · exact Or.inl (Or.inr (he' ▸ hx))
      · exact Or.inr ⟨e', he', hx⟩

/-- The keys collected over a list of entries are duplicate-free. -/
theorem nodup_collectKeys (l : List Entry) :
    ∀ acc : List String, acc.Nodup → (collectKeys acc l).Nodup := by
  induction l with
  | nil => intro acc h; simpa [collectKeys] using h
  | cons e rest ih =>
    intro acc h
    exact ih _ (nodup_keysUpdate acc e.2 h)

/-- With a positive cap `k`, the row-writing loop started at `written` rows
emits `min (k - written) (number of truthy-data entries)` rows. -/
theorem writeRowsLoop_length_cap (dh : List String) (k : Nat) (hk : 0 < k)
    (entries : List Entry) :
    ∀ written : Nat, (writeRowsLoop dh (some k) entries written).length =
      min (k - written) ((entries.filter (fun e => truthy e.2)).length) := by
  induction entries with
  | nil => intro w; simp [writeRowsLoop]
  | cons e rest ih =>
    intro w
    have hcap : capReached (some k) w = decide (k ≤ w) := by
      simp [capReached, Nat.pos_iff_ne_zero.mp hk]
    by_cases hw : k ≤ w
    · rw [writeRowsLoop, if_pos (by simp [hcap, hw])]
      simp [Nat.sub_eq_zero_of_le hw]
    · rw [writeRowsLoop, if_neg (by simp [hcap, hw])]
      by_cases ht : truthy e.2
      · have hfil : List.filter (fun e => truthy e.2) (e :: rest) =
            e :: List.filter (fun e => truthy e.2) rest := by simp [ht]
        rw [if_pos ht, hfil]
        simp only [List.length_cons, ih (w + 1)]
        omega
      · have hfil : List.filter (fun e => truthy e.2) (e :: rest) =
            List.filter (fun e => truthy e.2) rest := by simp [ht]
        rw [if_neg ht, hfil, ih w]

/-- When the cap test never fires (a falsy `max_rows`), the row-writing loop
emits one rendered row per truthy-data entry, in order. -/
theorem writeRowsLoop_nocap (dh : List String) (maxRows : Option Nat)
    (hmr : ∀ w, capReached maxRows w = false) (entries : List Entry) :
    ∀ written : Nat, writeRowsLoop dh maxRows entries written =
      (entries.filter (fun e => truthy e.2)).map
        (fun e => renderRow (baseHeaders ++ dh) (csvRowAssoc dh e.1 e.2)) := by
  induction entries with
  | nil => intro w; simp [writeRowsLoop]
  | cons e rest ih =>
    intro w
    rw [writeRowsLoop, if_neg (by simp [hmr w])]
    by_cases ht : truthy e.2
    · have hfil : List.filter (fun e => truthy e.2) (e :: rest) =
          e :: List.filter (fun e => truthy e.2) rest := by simp [ht]
      rw [if_pos ht, hfil, List.map_cons, ih (w + 1)]
    · have hfil : List.filter (fun e => truthy e.2) (e :: rest) =
          List.filter (fun e => truthy e.2) rest := by simp [ht]
      rw [if_neg ht, hfil, ih w]

/-- Rendering the three base headers against the base fields yields the
network string and the range endpoints. -/
theorem renderRow_baseHeaders (net : IPv4Net) :
    renderRow baseHeaders (baseFields net) =
      [netString net, dotted (netStart net), dotted (netEnd net)] := rfl

/-- A column name distinct from the three base names is absent from the base
fields, so the CSV writer renders its `restval`, the empty string. -/
theorem lookup_baseFields_eq_none (net : IPv4Net) (k : String)
    (hk : k ∉ baseHeaders) : List.lookup k (baseFields net) = none := by
  have h1 : k ≠ "network" := by intro h; exact hk (by simp [baseHeaders, h])
  have h2 : k ≠ "network_start" := by intro h; exact hk (by simp [baseHeaders, h])
  have h3 : k ≠ "network_end" := by intro h; exact hk (by simp [baseHeaders, h])
  have b1 : (k == "network") = false := beq_eq_false_iff_ne.mpr h1
  have b2 : (k == "network_start") = false := beq_eq_false_iff_ne.mpr h2
  have b3 : (k == "network_end") = false := beq_eq_false_iff_ne.mpr h3
  simp [baseFields, List.lookup, b1, b2, b3]

/-- Rendering splits over header concatenation. -/
theorem renderRow_append (h1 h2 : List String) (row : List (String × String)) :
    renderRow (h1 ++ h2) row = renderRow h1 row ++ renderRow h2 row :=
  List.map_append _ _ _

/-- The existence check against the modelled remote store reports exactly
whether the logical filename is among the registered ones. -/
theorem check_remoteQuery (registered : List String) (lf : String) :
    check_lookup_exists (remoteQuery registered lf) lf = registered.contains lf := by
  by_cases hm : lf ∈ registered
  · have hc : registered.contains lf = true := by simpa using hm
    rw [remoteQuery, if_pos hc, hc]
    simp [check_lookup_exists]
  · have hc : registered.contains lf = false := by simpa using hm
    rw [remoteQuery, if_neg (fun hcon => hm (by simpa using hcon)), hc]
    rfl

/-! The claims. -/

/-- C1: end-to-end transcoding — for the 3-entry database
`{10.0.0.0/24: {"score":1}, 10.0.1.0/24: {}, 10.0.2.0/24:
{"score":2,"tags":["a","b"]}}`, `convert_mmdb_to_csv` with any sample size
≥ 3 infers the data columns `["score","tags"]` and writes exactly two data
rows, skipping the empty-data middle record: row 1 has network=10.0.0.0/24,
score=1, tags=NULL; row 2 has network=10.0.2.0/24, score=2,
tags=LIST_2_ITEMS. -/
theorem C1_end_to_end (n : Nat) (h : 3 ≤ n) :
    convertSampled endToEndDb n none =
      (["network", "network_start", "network_end", "score", "tags"],
       [["10.0.0.0/24", "10.0.0.0", "10.0.0.255", "1", "NULL"],
        ["10.0.2.0/24", "10.0.2.0", "10.0.2.255", "2", "LIST_2_ITEMS"]]) := by
  have hs : inferDataHeaders endToEndDb n = ["score", "tags"] := by
    unfold inferDataHeaders
    rw [sampleLoop_eq_collect n endToEndDb 0 [] (by omega), Nat.sub_zero]
    rw [show List.filter (fun e => truthy e.2) endToEndDb =
          [(⟨167772160, 24⟩, Value.dict [("score", Value.int 1)]),
           (⟨167772672, 24⟩, Value.dict [("score", Value.int 2),
              ("tags", Value.list [Value.str "a", Value.str "b"])])] from rfl]
    rw [List.take_of_length_le (by simp; omega)]
    decide
  unfold convertSampled
  rw [hs]
  decide

/-- Witness for C1, at the source's fixed sample size 1000 (≥ 3). -/
theorem C1_end_to_end_witness :
    3 ≤ 1000 ∧
    convert_mmdb_to_csv endToEndDb none =
      (["network", "network_start", "network_end", "score", "tags"],
       [["10.0.0.0/24", "10.0.0.0", "10.0.0.255", "1", "NULL"],
        ["10.0.2.0/24", "10.0.2.0", "10.0.2.255", "2", "LIST_2_ITEMS"]]) :=
  ⟨by decide, C1_end_to_end 1000 (by decide)⟩

/-- C2: encoding round-trips — a record value `["x"]` looked up for a schema
column encodes as `LIST_1_ITEM_x`; `[]` as `EMPTY_LIST`; `["a","b","c"]` as
`LIST_3_ITEMS`; `{}` as `EMPTY_DICT`; `{"a":1,"b":2,"c":3,"d":4}` as
`DICT_4_KEYS_a_b_c` (count of all keys, names of the first three only). -/
theorem C2_encoding_round_trips :
    encodeValue (dictGet [("tags", .list [.str "x"])] "tags") = "LIST_1_ITEM_x" ∧
    encodeValue (dictGet [("tags", .list [])] "tags") = "EMPTY_LIST" ∧
    encodeValue (dictGet [("tags", .list [.str "a", .str "b", .str "c"])] "tags") =
      "LIST_3_ITEMS" ∧
    encodeValue (dictGet [("meta", .dict [])] "meta") = "EMPTY_DICT" ∧
    encodeValue (dictGet [("meta", .dict [("a", .int 1), ("b", .int 2), ("c", .int 3),
      ("d", .int 4)])] "meta") = "DICT_4_KEYS_a_b_c" := by
  refine ⟨by decide, by decide, by decide, by decide, by decide⟩

/-- C3: schema inference — for every database and positive sample size, the
CSV header is the three fixed columns followed by the data headers, which
are lexicographically sorted, duplicate-free, and contain exactly the keys
observed among the first `n` records with non-empty data (fewer if the
database is exhausted); for fixed input and sample size the result is
identical across repeated runs. -/
theorem C3_schema_inference (entries : List Entry) (n : Nat) (maxRows : Option Nat)
    (h : 0 < n) :
    (convertSampled entries n maxRows).1 = baseHeaders ++ inferDataHeaders entries n ∧
    List.Sorted (fun a b => strLeB a b = true) (inferDataHeaders entries n) ∧
    (inferDataHeaders entries n).Nodup ∧
    (∀ k, k ∈ inferDataHeaders entries n ↔
      ∃ e ∈ sampleOf entries n, dictHasKey e.2 k) ∧
    (∀ entries2 n2, entries2 = entries → n2 = n →
      convertSampled entries2 n2 maxRows = convertSampled entries n maxRows) := by
  haveI : IsTotal String (fun a b => strLeB a b = true) :=
    ⟨fun a b => lexLeChars_total a.data b.data⟩
  haveI : IsTrans String (fun a b => strLeB a b = true) :=
    ⟨fun a b c => lexLeChars_trans a.data b.data c.data⟩
  have hloop : sampleLoop n entries 0 [] = collectKeys [] (sampleOf entries n) := by
    rw [sampleLoop_eq_collect n entries 0 [] h, Nat.sub_zero]; rfl
  refine ⟨rfl, ?_, ?_, ?_, ?_⟩
  · exact List.sorted_insertionSort _ _
  · unfold inferDataHeaders sortStrings
    rw [List.Perm.nodup_iff (List.perm_insertionSort _ _), hloop]
    exact nodup_collectKeys _ [] List.nodup_nil
  · intro k
    unfold inferDataHeaders sortStrings
    rw [List.Perm.mem_iff (List.perm_insertionSort _ _), hloop,
      mem_collectKeys (sampleOf entries n) [] k]
    simp
  · intro entries2 n2 he hn
    rw [he, hn]

/-- Witness for C3, on the end-to-end database at sample size 1000. -/
theorem C3_schema_inference_witness :
    0 < 1000 ∧
    ((convertSampled endToEndDb 1000 none).1 =
        baseHeaders ++ inferDataHeaders endToEndDb 1000 ∧
      List.Sorted (fun a b => strLeB a b = true) (inferDataHeaders endToEndDb 1000) ∧
      (inferDataHeaders endToEndDb 1000).Nodup ∧
      (∀ k, k ∈ inferDataHeaders endToEndDb 1000 ↔
        ∃ e ∈ sampleOf endToEndDb 1000, dictHasKey e.2 k) ∧
      (∀ entries2 n2, entries2 = endToEndDb → n2 = 1000 →
        convertSampled entries2 n2 none = convertSampled endToEndDb 1000 none)) :=
  ⟨by decide, C3_schema_inference endToEndDb 1000 none (by decide)⟩

/-- C4 counterexample: with `max_rows = 0` on a database holding one record
with non-empty data, `convert_mmdb_to_csv` writes 1 data row, but the claim
predicts min(0, 1) = 0 — in the code a cap of 0 is falsy and disables the
limit, so the claim fails at k = 0. -/
theorem C4_row_cap_counterexample :
    ((convert_mmdb_to_csv [(⟨167772160, 24⟩, Value.dict [("score", Value.int 1)])]
        (some 0)).2).length = 1 ∧
    (1 : Nat) ≠ min 0 1 := by
  refine ⟨by decide, by decide⟩

/-- C4 as amended: for every database and every positive row cap k, the CSV
written by `convert_mmdb_to_csv` with `max_rows = k` contains exactly
min(k, number of records with non-empty data) data rows (the header row is
delivered separately in the embedding); reaching the cap is a sampling
control, not an error. -/
theorem C4_row_cap (entries : List Entry) (k : Nat) (hk : 1 ≤ k) :
    ((convert_mmdb_to_csv entries (some k)).2).length =
      min k ((entries.filter (fun e => truthy e.2)).length) := by
  have hmain := writeRowsLoop_length_cap (inferDataHeaders entries 1000) k hk entries 0
  simpa [convert_mmdb_to_csv, convertSampled] using hmain

/-- Witness for C4 at cap 1 on the end-to-end database. -/
theorem C4_row_cap_witness :
    1 ≤ 1 ∧
    ((convert_mmdb_to_csv endToEndDb (some 1)).2).length =
      min 1 ((endToEndDb.filter (fun e => truthy e.2)).length) :=
  ⟨by decide, C4_row_cap endToEndDb 1 (by decide)⟩

/-- C5 counterexample: in the two-entry database whose second record's data
is the scalar "hello", the schema has the data column "score", and the
second row renders that column as the empty string (the CSV writer's
`restval` for fields absent from the row), not as the literal NULL the claim
states. -/
theorem C5_scalar_records_counterexample :
    (convert_mmdb_to_csv scalarDb none).2 =
      [["10.0.0.0/24", "10.0.0.0", "10.0.0.255", "1"],
       ["10.0.1.0/24", "10.0.1.0", "10.0.1.255", ""]] ∧
    ("" : String) ≠ "NULL" := by
  refine ⟨by decide, by decide⟩

/-- C5 as amended: for every record whose value is truthy but not a dict, a
row is still emitted whose three base columns are populated, and every
schema data column (not named one of the three base columns) is rendered as
the empty string — the CSV writer's default for fields absent from the row —
rather than as NULL. -/
theorem C5_scalar_records (dh : List String) (net : IPv4Net) (v : Value)
    (ht : truthy v = true) (hd : isDictV v = false)
    (hk : ∀ k ∈ dh, k ∉ baseHeaders) :
    renderRow (baseHeaders ++ dh) (csvRowAssoc dh net v) =
      [netString net, dotted (netStart net), dotted (netEnd net)] ++
        dh.map (fun _ => "") ∧
    writeRowsLoop dh none [(net, v)] 0 =
      [[netString net, dotted (netStart net), dotted (netEnd net)] ++
        dh.map (fun _ => "")] := by
  have hrow : csvRowAssoc dh net v = baseFields net := by
    cases v with
    | dict kvs => simp [isDictV] at hd
    | str s => rfl
    | int m => rfl
    | bool b => rfl
    | null => rfl
    | list xs => rfl
  have hcells : renderRow (baseHeaders ++ dh) (csvRowAssoc dh net v) =
      [netString net, dotted (netStart net), dotted (netEnd net)] ++
        dh.map (fun _ => "") := by
    rw [hrow, renderRow_append, renderRow_baseHeaders]
    congr 1
    apply List.map_congr_left
    intro k hkdh
    rw [lookup_baseFields_eq_none net k (hk k hkdh)]
    rfl
  refine ⟨hcells, ?_⟩
  rw [writeRowsLoop, if_neg (by decide), if_pos ht, hcells]
  rfl

/-- Witness for C5 on a concrete scalar record. -/
theorem C5_scalar_records_witness :
    truthy (Value.str "hello") = true ∧
    isDictV (Value.str "hello") = false ∧
    (∀ k ∈ ["score"], k ∉ baseHeaders) ∧
    (renderRow (baseHeaders ++ ["score"])
        (csvRowAssoc ["score"] ⟨167772416, 24⟩ (Value.str "hello")) =
      [netString ⟨167772416, 24⟩, dotted (netStart ⟨167772416, 24⟩),
        dotted (netEnd ⟨167772416, 24⟩)] ++ ["score"].map (fun _ => "") ∧
    writeRowsLoop ["score"] none [(⟨167772416, 24⟩, Value.str "hello")] 0 =
      [[netString ⟨167772416, 24⟩, dotted (netStart ⟨167772416, 24⟩),
        dotted (netEnd ⟨167772416, 24⟩)] ++ ["score"].map (fun _ => "")]) :=
  ⟨by decide, by decide, by decide,
    C5_scalar_records ["score"] ⟨167772416, 24⟩ (Value.str "hello")
      (by decide) (by decide) (by decide)⟩

/-- C6 counterexample: for the nested dict value `{"a,b": 1}` the code
renders `DICT_1_KEYS_a;b` — the comma in the key is replaced by a semicolon
— while the claim's "commas stripped" rule predicts `DICT_1_KEYS_ab`. -/
theorem C6_dict_preview_counterexample :
    encodeValue (Value.dict [("a,b", Value.int 1)]) = "DICT_1_KEYS_a;b" ∧
    specDictCellStripped 1 ["a,b"] = "DICT_1_KEYS_ab" ∧
    ("DICT_1_KEYS_a;b" : String) ≠ "DICT_1_KEYS_ab" := by
  refine ⟨by decide, by decide, by decide⟩

/-- C6 as amended: every nested dict value with at least one key renders as
`DICT_<n>_KEYS_` followed by the first three key names, each with commas
replaced by semicolons and then truncated to at most 10 characters, joined
by underscores. -/
theorem C6_dict_preview (kvs : List (String × Value)) (h : kvs ≠ []) :
    encodeValue (Value.dict kvs) = specDictCell kvs.length (kvs.map Prod.fst) := by
  cases kvs with
  | nil => exact absurd rfl h
  | cons p rest => rfl

/-- Witness for C6 on a one-key dict. -/
theorem C6_dict_preview_witness :
    ([("a", Value.int 1)] : List (String × Value)) ≠ [] ∧
    encodeValue (Value.dict [("a", Value.int 1)]) =
      specDictCell [("a", Value.int 1)].length ([("a", Value.int 1)].map Prod.fst) :=
  ⟨List.cons_ne_nil _ _, C6_dict_preview [("a", Value.int 1)] (List.cons_ne_nil _ _)⟩

/-- C7: upload response validation — when the response lacks the temporary
filename, or carries one that does not start with the artifact's base name
(the filename up to its first dot), `upload_lookup_file` returns `none`, so
the upload is treated as failed and never silently accepted. -/
theorem C7_upload_validation (lookup_filename temp : String)
    (h : pyStartsWith temp (baseNameOf lookup_filename) = false) :
    upload_lookup_file lookup_filename (some temp) = none ∧
    upload_lookup_file lookup_filename none = none := by
  refine ⟨?_, rfl⟩
  by_cases he : temp = ""
  · simp [upload_lookup_file, he]
  · simp [upload_lookup_file, he, h]

/-- Witness for C7 on a mismatched temporary filename. -/
theorem C7_upload_validation_witness :
    pyStartsWith "other-tmp123" (baseNameOf "ti_greynoise_indicators-simple.mmdb") =
      false ∧
    (upload_lookup_file "ti_greynoise_indicators-simple.mmdb" (some "other-tmp123") =
      none ∧
    upload_lookup_file "ti_greynoise_indicators-simple.mmdb" none = none) :=
  ⟨by decide, C7_upload_validation "ti_greynoise_indicators-simple.mmdb" "other-tmp123"
    (by decide)⟩

/-- C8: bind dispatch and idempotence — `main` takes the update (PATCH) path
iff the existence check reports the logical filename registered, and the
create (POST) path otherwise; either payload carries the logical id and the
server-assigned temp filename; and a second run against the store left by
the first always takes the update path, never a duplicate create. -/
theorem C8_bind_dispatch (registered : List String) (lf t1 t2 : String) :
    ((bindStep registered lf t1).1 = BindAction.updatePath ↔
      check_lookup_exists (remoteQuery registered lf) lf = true) ∧
    ((bindStep registered lf t1).1 = BindAction.createPath ↔
      check_lookup_exists (remoteQuery registered lf) lf = false) ∧
    (bindStep registered lf t1).2.1 = ⟨lf, t1⟩ ∧
    (bindStep ((bindStep registered lf t1).2.2) lf t2).1 = BindAction.updatePath := by
  cases hc : registered.contains lf
  · have h1 : check_lookup_exists (remoteQuery registered lf) lf = false := by
      rw [check_remoteQuery, hc]
    have hstep : bindStep registered lf t1 =
        (BindAction.createPath, create_lookup_payload lf t1, lf :: registered) := by
      simp [bindStep, h1]
    refine ⟨?_, ?_, ?_, ?_⟩
    · rw [hstep, h1]; simp
    · rw [hstep, h1]; simp [create_lookup_payload]
    · rw [hstep]; rfl
    · rw [hstep, show (BindAction.createPath, create_lookup_payload lf t1,
          lf :: registered).2.2 = lf :: registered from rfl]
      have h2 : check_lookup_exists (remoteQuery (lf :: registered) lf) lf = true := by
        rw [check_remoteQuery]; simp [List.contains_cons]
      simp [bindStep, h2]
  · have h1 : check_lookup_exists (remoteQuery registered lf) lf = true := by
      rw [check_remoteQuery, hc]
    have hstep : bindStep registered lf t1 =
        (BindAction.updatePath, update_lookup_payload lf t1, registered) := by
      simp [bindStep, h1]
    refine ⟨?_, ?_, ?_, ?_⟩
    · rw [hstep, h1]; simp
    · rw [hstep, h1]; simp [update_lookup_payload]
    · rw [hstep]; rfl
    · rw [hstep, show (BindAction.updatePath, update_lookup_payload lf t1,
          registered).2.2 = registered from rfl]
      simp [bindStep, h1]

/-- C9 counterexample: when the existence query fails (transport error or
non-2xx), `check_lookup_exists` returns False and the orchestrator proceeds
down the create path — the run segment yields the create action instead of
aborting with a fatal error as the claim states. -/
theorem C9_exists_failure_counterexample :
    check_lookup_exists (Except.error ()) "ti_greynoise_indicators-simple.mmdb" =
      false ∧
    mainBindSegment (Except.error ()) "ti_greynoise_indicators-simple.mmdb" "tmp-1"
        true true =
      Except.ok (BindAction.createPath,
        create_lookup_payload "ti_greynoise_indicators-simple.mmdb" "tmp-1") := by
  refine ⟨rfl, rfl⟩

/-- C9 as amended: a failing existence query is absorbed, not fatal — the
check logs the error and returns False, and the orchestrator proceeds down
the create path for the artifact. -/
theorem C9_exists_failure_absorbed (lf temp : String) (u : Bool) :
    check_lookup_exists (Except.error ()) lf = false ∧
    mainBindSegment (Except.error ()) lf temp u true =
      Except.ok (BindAction.createPath, create_lookup_payload lf temp) := by
  refine ⟨rfl, ?_⟩
  simp [mainBindSegment, check_lookup_exists]

/-- C10: a falsy row cap — `max_rows` equal to None or to 0 — never triggers
the cap, and every record with non-empty data is written as a data row, so a
cap of 0 produces the full export, not an empty sample. -/
theorem C10_falsy_cap_full_export (entries : List Entry) :
    (∀ w, capReached none w = false) ∧
    (∀ w, capReached (some 0) w = false) ∧
    (convert_mmdb_to_csv entries none).2 =
      (entries.filter (fun e => truthy e.2)).map
        (fun e => renderRow (baseHeaders ++ inferDataHeaders entries 1000)
          (csvRowAssoc (inferDataHeaders entries 1000) e.1 e.2)) ∧
    (convert_mmdb_to_csv entries (some 0)).2 = (convert_mmdb_to_csv entries none).2 := by
  refine ⟨fun w => rfl, fun w => rfl, ?_, ?_⟩
  · exact writeRowsLoop_nocap _ none (fun w => rfl) entries 0
  · rw [show (convert_mmdb_to_csv entries (some 0)).2 =
        writeRowsLoop (inferDataHeaders entries 1000) (some 0) entries 0 from rfl,
      show (convert_mmdb_to_csv entries none).2 =
        writeRowsLoop (inferDataHeaders entries 1000) none entries 0 from rfl,
      writeRowsLoop_nocap _ (some 0) (fun w => rfl) entries 0,
      writeRowsLoop_nocap _ none (fun w => rfl) entries 0]
